import Mathlib

/-!
Shallow embedding of the aff3ct iterative-chain core pieces under scrutiny:

* `Modulator_i` (Module/Modulator/Modulator.hpp): the size-checked transform
  entry points (`modulate`, `filter`, `demodulate`, `demodulate_with_gains`
  and the extrinsic-feedback overloads), the protected batch-walking default
  implementations (`_modulate`, `_filter`, `_demodulate`, ...), the default
  per-frame kernels that throw "unimplemented" `std::runtime_error`s, and the
  three constructors with their derived buffer sizes.
* `Terminal::parameters::build` (Factory/Tools/Display/Terminal/Terminal.cpp).
* the `SC_BFER_ite` wiring members
  (Simulation/Legacy/BFER/Iterative/SystemC/SC_BFER_ite.hpp).

Buffers (`mipp::vector<T>`) are embedded as `List T`; the C++ `int` sizes
`N`, `N_mod`, `N_fil`, `n_frames` are embedded as `Int` and compared with
buffer lengths cast to `Int`, mirroring the `(int)v.size()` casts of the
source.  C++ exceptions become an `Except` error monad whose constructors
mirror the thrown exception classes (`std::length_error`,
`std::runtime_error`, `std::invalid_argument`, `tools::cannot_allocate`).
A virtual per-frame kernel (`_modulate_fbf`, ...) is embedded as an
`Option`al function field: `none` is the base-class body (throwing
"unimplemented"), `some k` is a concrete override writing one frame.
-/

/-- Errors thrown by the embedded code, one constructor per C++ exception
class used by the source files. -/
inductive ModError where
  | lengthError (msg : String)
  | runtimeError (msg : String)
  | invalidArgument (msg : String)
  deriving DecidableEq, Repr

/-- The result of a transform call is a `lengthError` (C++
`std::length_error`, the spec's `SizeMismatch`). -/
def isSizeErr {α : Type} (r : Except ModError α) : Prop :=
  ∃ s, r = Except.error (ModError.lengthError s)

/-- Embedding of reading one frame at a pointer offset: the sub-buffer of
`buf` starting at `off` with `len` elements (`buf.data() + off`, read `len`
wide by a per-frame kernel). -/
def sliceFr {α : Type} (buf : List α) (off len : Nat) : List α :=
  (buf.drop off).take len

/-- Embedding of writing through a pointer at offset `off`: overwrite
`vals.length` elements of `buf` starting at `off`, in place. -/
def writeAt {α : Type} (buf : List α) (off : Nat) (vals : List α) : List α :=
  buf.take off ++ vals ++ buf.drop (off + vals.length)

/-- Embedding of the `for (auto f = 0; f < n_frames; f++)` batch loop shared
by every protected `_xxx` default implementation: for each frame index `f`
either invoke the per-frame kernel (`g? = some g`, writing its frame of
output at offset `f * outStride`) or, when the kernel is the base-class
default (`g? = none`), throw the "unimplemented" `std::runtime_error` that
the default `_xxx_fbf` body throws. -/
def frameLoop {α : Type} (nf outStride : Nat) (g? : Option (Nat → List α))
    (msg : String) (out : List α) : Except ModError (List α) :=
  (List.range nf).foldlM
    (fun b f =>
      match g? with
      | none => Except.error (ModError.runtimeError msg)
      | some g => Except.ok (writeAt b (f * outStride) (g f)))
    out

/-- The message of the `std::length_error` thrown when buffer `buf` fails its
size check against per-frame size `siz` (mirrors the source's message text). -/
def msgN (buf siz : String) : String :=
  "aff3ct::module::Modulator: \"" ++ buf ++ ".size()\" has to be equal to \"" ++
    siz ++ "\" * \"n_frames\"."

/-- The message of the `std::runtime_error` thrown by an unoverridden
per-frame kernel `fn`. -/
def msgUnimpl (fn : String) : String :=
  "aff3ct::module::Modulator: \"" ++ fn ++ "\" is unimplemented."

/-- Embedding of `Modulator_i<B,R,Q>`: the three per-frame element counts and
the batch width, plus one optional per-frame kernel per virtual `_xxx_fbf`
method (`none` = not overridden, i.e. the base-class "unimplemented" body). -/
structure Modulator (B R Q : Type) where
  N : Int
  N_mod : Int
  N_fil : Int
  n_frames : Int
  modulate_fbf : Option (List B → List R)
  filter_fbf : Option (List R → List R)
  demodulate_fbf : Option (List Q → List Q)
  demodulate_with_gains_fbf : Option (List Q → List R → List Q)
  demodulate_ext_fbf : Option (List Q → List Q → List Q)
  demodulate_with_gains_ext_fbf : Option (List Q → List R → List Q → List Q)

/-- Default `virtual int get_buffer_size_after_modulation(const int N)`:
returns `N` unchanged. -/
def get_buffer_size_after_modulation (N : Int) : Int :=
  N

/-- Default `virtual int get_buffer_size_after_filtering(const int N)`:
returns `get_buffer_size_after_modulation(N)`. -/
def get_buffer_size_after_filtering (N : Int) : Int :=
  get_buffer_size_after_modulation N

/-- Three-size constructor `Modulator_i(N, N_mod, N_fil, n_frames, name)`:
throws `std::invalid_argument` when `N <= 0`; the `N_mod`/`N_fil` checks are
commented out in the source (the Modulator_CPM hack).  The `Module` base
constructor is outside the given sources and adds no field modelled here.
A freshly constructed `Modulator_i` overrides no `_xxx_fbf` kernel. -/
def Modulator.mk3 (B R Q : Type) (N N_mod N_fil n_frames : Int) :
    Except ModError (Modulator B R Q) :=
  if N ≤ 0 then
    Except.error (ModError.invalidArgument
      "aff3ct::module::Modulator: \"N\" has to be greater than 0.")
  else
    Except.ok ⟨N, N_mod, N_fil, n_frames, none, none, none, none, none, none⟩

/-- Two-size constructor `Modulator_i(N, N_mod, n_frames, name)`: derives
`N_fil = get_buffer_size_after_filtering(N_mod)` (base-class version: during
base construction no derived override is active) and performs no check. -/
def Modulator.mk2 (B R Q : Type) (N N_mod n_frames : Int) : Modulator B R Q :=
  ⟨N, N_mod, get_buffer_size_after_filtering N_mod, n_frames,
   none, none, none, none, none, none⟩

/-- One-size constructor `Modulator_i(N, n_frames, name)`: derives
`N_mod = get_buffer_size_after_modulation(N)` and
`N_fil = get_buffer_size_after_filtering(N)` and performs no check. -/
def Modulator.mk1 (B R Q : Type) (N n_frames : Int) : Modulator B R Q :=
  ⟨N, get_buffer_size_after_modulation N, get_buffer_size_after_filtering N,
   n_frames, none, none, none, none, none, none⟩

variable {B R Q : Type}

/-- Protected `_modulate`: walks the batch, one `_modulate_fbf` call per
frame, reading `N` elements at `X_N1.data() + f * N` and writing at
`X_N2.data() + f * N_mod`. -/
def Modulator.p_modulate (m : Modulator B R Q) (X_N1 : List B) (X_N2 : List R) :
    Except ModError (List R) :=
  frameLoop m.n_frames.toNat m.N_mod.toNat
    (m.modulate_fbf.map fun k f => k (sliceFr X_N1 (f * m.N.toNat) m.N.toNat))
    (msgUnimpl "_modulate_fbf")
    X_N2

/-- Protected `_filter`: when the two buffers have the same size, fast path
`Y_N2 = Y_N1` (pure copy, no kernel call); otherwise walks the batch calling
`_filter_fbf` per frame, reading at `Y_N1.data() + f * N_mod` and writing at
`Y_N2.data() + f * N_fil`. -/
def Modulator.p_filter (m : Modulator B R Q) (Y_N1 Y_N2 : List R) :
    Except ModError (List R) :=
  if Y_N1.length = Y_N2.length then
    Except.ok Y_N1
  else
    frameLoop m.n_frames.toNat m.N_fil.toNat
      (m.filter_fbf.map fun k f =>
        k (sliceFr Y_N1 (f * m.N_mod.toNat) m.N_mod.toNat))
      (msgUnimpl "_filter_fbf")
      Y_N2

/-- Protected `_demodulate` (plain overload): per frame, reads `N_fil`
elements at `Y_N1.data() + f * N_fil` and writes at `Y_N2.data() + f * N`. -/
def Modulator.p_demodulate (m : Modulator B R Q) (Y_N1 Y_N2 : List Q) :
    Except ModError (List Q) :=
  frameLoop m.n_frames.toNat m.N.toNat
    (m.demodulate_fbf.map fun k f =>
      k (sliceFr Y_N1 (f * m.N_fil.toNat) m.N_fil.toNat))
    (msgUnimpl "_demodulate_fbf")
    Y_N2

/-- Protected `_demodulate_with_gains` (plain overload): per frame, reads
`Y_N1` and `H_N` at `f * N_fil` and writes at `Y_N2.data() + f * N`. -/
def Modulator.p_demodulate_with_gains (m : Modulator B R Q) (Y_N1 : List Q)
    (H_N : List R) (Y_N2 : List Q) : Except ModError (List Q) :=
  frameLoop m.n_frames.toNat m.N.toNat
    (m.demodulate_with_gains_fbf.map fun k f =>
      k (sliceFr Y_N1 (f * m.N_fil.toNat) m.N_fil.toNat)
        (sliceFr H_N (f * m.N_fil.toNat) m.N_fil.toNat))
    (msgUnimpl "_demodulate_with_gains_fbf")
    Y_N2

/-- Protected `_demodulate` (extrinsic-feedback overload): per frame, reads
`Y_N1` at `f * N_fil`, the extrinsic input `Y_N2` at `f * N`, and writes at
`Y_N3.data() + f * N`. -/
def Modulator.p_demodulate_ext (m : Modulator B R Q) (Y_N1 Y_N2 Y_N3 : List Q) :
    Except ModError (List Q) :=
  frameLoop m.n_frames.toNat m.N.toNat
    (m.demodulate_ext_fbf.map fun k f =>
      k (sliceFr Y_N1 (f * m.N_fil.toNat) m.N_fil.toNat)
        (sliceFr Y_N2 (f * m.N.toNat) m.N.toNat))
    (msgUnimpl "_demodulate_fbf")
    Y_N3

/-- Protected `_demodulate_with_gains` (extrinsic-feedback overload): per
frame, reads `Y_N1` and `H_N` at `f * N_fil`, the extrinsic input `Y_N2` at
`f * N`, and writes at `Y_N3.data() + f * N`. -/
def Modulator.p_demodulate_with_gains_ext (m : Modulator B R Q) (Y_N1 : List Q)
    (H_N : List R) (Y_N2 Y_N3 : List Q) : Except ModError (List Q) :=
  frameLoop m.n_frames.toNat m.N.toNat
    (m.demodulate_with_gains_ext_fbf.map fun k f =>
      k (sliceFr Y_N1 (f * m.N_fil.toNat) m.N_fil.toNat)
        (sliceFr H_N (f * m.N_fil.toNat) m.N_fil.toNat)
        (sliceFr Y_N2 (f * m.N.toNat) m.N.toNat))
    (msgUnimpl "_demodulate_with_gains_fbf")
    Y_N3

/-- Public `modulate(X_N1, X_N2)`: checks `X_N1.size() == N * n_frames` and
`X_N2.size() == N_mod * n_frames`, in that order, then calls `_modulate`. -/
def Modulator.modulate (m : Modulator B R Q) (X_N1 : List B) (X_N2 : List R) :
    Except ModError (List R) :=
  if m.N * m.n_frames ≠ (X_N1.length : Int) then
    Except.error (ModError.lengthError
      (msgN "X_N1" "N"))
  else if m.N_mod * m.n_frames ≠ (X_N2.length : Int) then
    Except.error (ModError.lengthError
      (msgN "X_N2" "N_mod"))
  else
    m.p_modulate X_N1 X_N2

/-- Public `filter(Y_N1, Y_N2)`: checks `Y_N1.size() == N_mod * n_frames` and
`Y_N2.size() == N_fil * n_frames`, in that order, then calls `_filter`. -/
def Modulator.filter (m : Modulator B R Q) (Y_N1 Y_N2 : List R) :
    Except ModError (List R) :=
  if m.N_mod * m.n_frames ≠ (Y_N1.length : Int) then
    Except.error (ModError.lengthError
      (msgN "Y_N1" "N_mod"))
  else if m.N_fil * m.n_frames ≠ (Y_N2.length : Int) then
    Except.error (ModError.lengthError
      (msgN "Y_N2" "N_fil"))
  else
    m.p_filter Y_N1 Y_N2

/-- Public `demodulate(Y_N1, Y_N2)`: checks `Y_N1.size() == N_fil * n_frames`
and `Y_N2.size() == N * n_frames`, then calls `_demodulate`. -/
def Modulator.demodulate (m : Modulator B R Q) (Y_N1 Y_N2 : List Q) :
    Except ModError (List Q) :=
  if m.N_fil * m.n_frames ≠ (Y_N1.length : Int) then
    Except.error (ModError.lengthError
      (msgN "Y_N1" "N_fil"))
  else if m.N * m.n_frames ≠ (Y_N2.length : Int) then
    Except.error (ModError.lengthError
      (msgN "Y_N2" "N"))
  else
    m.p_demodulate Y_N1 Y_N2

/-- Public `demodulate_with_gains(Y_N1, H_N, Y_N2)`: checks
`Y_N1.size() == N_fil * n_frames`, `H_N.size() == N_fil * n_frames` and
`Y_N2.size() == N * n_frames`, then calls `_demodulate_with_gains`. -/
def Modulator.demodulate_with_gains (m : Modulator B R Q) (Y_N1 : List Q)
    (H_N : List R) (Y_N2 : List Q) : Except ModError (List Q) :=
  if m.N_fil * m.n_frames ≠ (Y_N1.length : Int) then
    Except.error (ModError.lengthError
      (msgN "Y_N1" "N_fil"))
  else if m.N_fil * m.n_frames ≠ (H_N.length : Int) then
    Except.error (ModError.lengthError
      (msgN "H_N" "N_fil"))
  else if m.N * m.n_frames ≠ (Y_N2.length : Int) then
    Except.error (ModError.lengthError
      (msgN "Y_N2" "N"))
  else
    m.p_demodulate_with_gains Y_N1 H_N Y_N2

/-- Public `demodulate(Y_N1, Y_N2, Y_N3)` (extrinsic-feedback overload):
checks `Y_N1.size() == N_fil * n_frames`, `Y_N2.size() == N * n_frames` and
`Y_N3.size() == N * n_frames`, then calls the matching `_demodulate`. -/
def Modulator.demodulate_ext (m : Modulator B R Q) (Y_N1 Y_N2 Y_N3 : List Q) :
    Except ModError (List Q) :=
  if m.N_fil * m.n_frames ≠ (Y_N1.length : Int) then
    Except.error (ModError.lengthError
      (msgN "Y_N1" "N_fil"))
  else if m.N * m.n_frames ≠ (Y_N2.length : Int) then
    Except.error (ModError.lengthError
      (msgN "Y_N2" "N"))
  else if m.N * m.n_frames ≠ (Y_N3.length : Int) then
    Except.error (ModError.lengthError
      (msgN "Y_N3" "N"))
  else
    m.p_demodulate_ext Y_N1 Y_N2 Y_N3

/-- Public `demodulate_with_gains(Y_N1, H_N, Y_N2, Y_N3)` (extrinsic-feedback
overload): checks `Y_N1.size() == N_fil * n_frames`,
`H_N.size() == N_fil * n_frames`, `Y_N2.size() == N * n_frames` and
`Y_N3.size() == N * n_frames`, then calls `_demodulate_with_gains`. -/
def Modulator.demodulate_with_gains_ext (m : Modulator B R Q) (Y_N1 : List Q)
    (H_N : List R) (Y_N2 Y_N3 : List Q) : Except ModError (List Q) :=
  if m.N_fil * m.n_frames ≠ (Y_N1.length : Int) then
    Except.error (ModError.lengthError
      (msgN "Y_N1" "N_fil"))
  else if m.N_fil * m.n_frames ≠ (H_N.length : Int) then
    Except.error (ModError.lengthError
      (msgN "H_N" "N_fil"))
  else if m.N * m.n_frames ≠ (Y_N2.length : Int) then
    Except.error (ModError.lengthError
      (msgN "Y_N2" "N"))
  else if m.N * m.n_frames ≠ (Y_N3.length : Int) then
    Except.error (ModError.lengthError
      (msgN "Y_N3" "N"))
  else
    m.p_demodulate_with_gains_ext Y_N1 H_N Y_N2 Y_N3

/-- The declared per-frame channel-side size of every demodulation input that
carries channel observations or gains: `N_fil` elements per frame
(`Y_N1`, `H_N`).  `lenOKchan m n` states that a buffer of length `n`
satisfies that contract for `m`. -/
def lenOKchan (m : Modulator B R Q) (n : Nat) : Prop :=
  m.N_fil * m.n_frames = (n : Int)

/-- The declared per-frame information-side size of every demodulation buffer
carrying bit/LLR information: `N` elements per frame (the extrinsic input and
the demodulated output). -/
def lenOKinfo (m : Modulator B R Q) (n : Nat) : Prop :=
  m.N * m.n_frames = (n : Int)

instance (m : Modulator B R Q) (n : Nat) : Decidable (lenOKchan m n) :=
  inferInstanceAs (Decidable (_ = _))

instance (m : Modulator B R Q) (n : Nat) : Decidable (lenOKinfo m n) :=
  inferInstanceAs (Decidable (_ = _))

/-- Errors thrown by the factory code (`tools::cannot_allocate`). -/
inductive FactoryError where
  | cannotAllocate
  deriving DecidableEq, Repr

/-- The terminal object allocated by `Terminal::parameters::build`: the only
kind the factory can return is `tools::Terminal_std`, holding the reporter
list it was given.  `Rep` stands for `tools::Reporter`, external to the given
sources. -/
inductive TerminalObj (Rep : Type) where
  | std (reporters : List Rep)
  deriving DecidableEq, Repr

/-- Embedding of `Terminal::parameters::build(reporters)`: returns a new
`Terminal_std` when `type == "STD"`, otherwise throws
`tools::cannot_allocate`. -/
def Terminal.parameters.build (Rep : Type) (type : String)
    (reporters : List Rep) : Except FactoryError (TerminalObj Rep) :=
  if type = "STD" then Except.ok (TerminalObj.std reporters)
  else Except.error FactoryError.cannotAllocate

/-- Embedding of the static `Terminal::build(params, reporters)`: delegates
to `params.build(reporters)`. -/
def Terminal.build (Rep : Type) (type : String) (reporters : List Rep) :
    Except FactoryError (TerminalObj Rep) :=
  Terminal.parameters.build Rep type reporters

/-- Stand-in for `tools::SC_Duplicator` (class defined outside the given
sources; only its kind matters for the wiring-state claim). -/
inductive SC_Duplicator where
  | mk
  deriving DecidableEq, Repr

/-- Stand-in for `tools::SC_Router`. -/
inductive SC_Router where
  | mk
  deriving DecidableEq, Repr

/-- Stand-in for `tools::SC_Funnel`. -/
inductive SC_Funnel where
  | mk
  deriving DecidableEq, Repr

/-- Stand-in for `tools::SC_Predicate`. -/
inductive SC_Predicate where
  | mk
  deriving DecidableEq, Repr

/-- The wiring state added by `SC_BFER_ite` over its `BFER_ite` base, exactly
as declared in SC_BFER_ite.hpp: a `std::vector` of duplicators and one
`unique_ptr` member each for the router, the funnel and the predicate (each
`unique_ptr` modelled as the owned object). -/
structure SC_BFER_ite where
  duplicator : List SC_Duplicator
  router : SC_Router
  funnel : SC_Funnel
  predicate : SC_Predicate

/-- The four dataflow primitive kinds of the spec. -/
inductive PrimKind where
  | duplicator
  | router
  | funnel
  | predicate
  deriving DecidableEq, Repr

/-- The multiset (as a list) of primitive kinds held by an `SC_BFER_ite`
wiring state. -/
def SC_BFER_ite.kinds (s : SC_BFER_ite) : List PrimKind :=
  s.duplicator.map (fun _ => PrimKind.duplicator) ++
    [PrimKind.router, PrimKind.funnel, PrimKind.predicate]

/-! Helper lemmas about the batch loop. -/

/-- A batch loop whose per-frame steps all succeed is the pure fold of the
frame writes. -/
theorem foldlM_except_ok {α β : Type} (g : β → α → β) :
    ∀ (l : List α) (init : β),
      (List.foldlM (fun b a => (Except.ok (g b a) : Except ModError β)) init l)
        = Except.ok (List.foldl g init l) := by
  intro l
  induction l with
  | nil => intro init; rfl
  | cons a l ih =>
    intro init
    rw [List.foldlM_cons]
    show List.foldlM _ (g init a) l = _
    rw [ih, List.foldl_cons]

/-- The batch loop with no overridden kernel: a no-op on an empty batch,
otherwise the "unimplemented" error thrown at the first frame. -/
theorem frameLoop_none {α : Type} (nf L : Nat) (msg : String) (out : List α) :
    frameLoop nf L none msg out
      = if nf = 0 then Except.ok out
        else Except.error (ModError.runtimeError msg) := by
  cases nf with
  | zero => rfl
  | succ n =>
    rw [frameLoop, List.range_succ_eq_map, List.foldlM_cons]
    rfl

/-- The batch loop with no overridden kernel and a nonempty batch throws the
"unimplemented" error. -/
theorem frameLoop_none_pos {α : Type} (nf L : Nat) (msg : String)
    (out : List α) (h : nf ≠ 0) :
    frameLoop nf L none msg out = Except.error (ModError.runtimeError msg) := by
  rw [frameLoop_none, if_neg h]

/-- The batch loop with an overridden kernel succeeds with the fold of the
per-frame writes. -/
theorem frameLoop_some {α : Type} (nf L : Nat) (g : Nat → List α)
    (msg : String) (out : List α) :
    frameLoop nf L (some g) msg out
      = Except.ok ((List.range nf).foldl (fun b f => writeAt b (f * L) (g f)) out) := by
  rw [frameLoop, foldlM_except_ok]

/-- The batch loop never produces a size (length) error: only the entry-point
checks throw `std::length_error`. -/
theorem frameLoop_not_sizeErr {α : Type} (nf L : Nat)
    (g? : Option (Nat → List α)) (msg : String) (out : List α) :
    ¬ isSizeErr (frameLoop nf L g? msg out) := by
  rintro ⟨s, hs⟩
  cases g? with
  | none =>
    rw [frameLoop_none] at hs
    by_cases h : nf = 0 <;> simp [h] at hs
  | some g =>
    rw [frameLoop_some] at hs
    cases hs

/-- Writing at the exact end of a prefix overwrites the head of the rest. -/
theorem writeAt_full {α : Type} (A rest vals : List α) :
    writeAt (A ++ rest) A.length vals = A ++ (vals ++ rest.drop vals.length) := by
  rw [writeAt, List.take_left, List.drop_append, List.append_assoc]

/-- Flattening frame-sized blocks multiplies the length. -/
theorem flatten_map_length {α : Type} (g : Nat → List α) (L : Nat)
    (hg : ∀ f, (g f).length = L) (l : List Nat) :
    ((l.map g).flatten).length = l.length * L := by
  induction l with
  | nil => simp
  | cons a l ih =>
    simp only [List.map_cons, List.flatten_cons, List.length_append, hg, ih,
      List.length_cons, Nat.succ_mul]
    omega

/-- Folding frame-sized writes at stride `L` over frames `0, ..., n-1` lays
the frames down as a concatenation, leaving the tail of the buffer behind. -/
theorem foldl_writeAt_concat {α : Type} (g : Nat → List α) (L : Nat)
    (hg : ∀ f, (g f).length = L) :
    ∀ (n : Nat) (buf : List α),
      (List.range n).foldl (fun b f => writeAt b (f * L) (g f)) buf
        = ((List.range n).map g).flatten ++ buf.drop (n * L) := by
  intro n
  induction n with
  | zero => intro buf; simp
  | succ n ih =>
    intro buf
    have hF : (((List.range n).map g).flatten).length = n * L := by
      rw [flatten_map_length g L hg, List.length_range]
    rw [List.range_succ, List.foldl_append, ih buf, List.foldl_cons,
      List.foldl_nil, ← hF, writeAt_full, hg n, List.map_append,
      List.flatten_append, List.drop_drop]
    simp [Nat.succ_mul, hF]

/-- The batch loop with an overridden kernel on a buffer of exactly
`nf` frames returns the concatenation of the per-frame kernel outputs. -/
theorem frameLoop_some_concat {α : Type} (nf L : Nat) (g : Nat → List α)
    (msg : String) (out : List α) (hg : ∀ f, (g f).length = L)
    (hout : out.length = nf * L) :
    frameLoop nf L (some g) msg out
      = Except.ok (((List.range nf).map g).flatten) := by
  rw [frameLoop_some, foldl_writeAt_concat g L hg nf out, ← hout,
    List.drop_length, List.append_nil]

/-- Unfolding one size-check gate: the gated call is a size error exactly
when the gate fires or the guarded continuation itself is a size error. -/
theorem isSizeErr_if {α : Type} (c : Prop) [Decidable c] (msg : String)
    (next : Except ModError α) :
    isSizeErr (if c then Except.error (ModError.lengthError msg) else next)
      ↔ (c ∨ isSizeErr next) := by
  by_cases h : c <;> simp [h, isSizeErr]

/-- A size error is in particular not a success. -/
theorem isSizeErr_not_ok {α : Type} (r : Except ModError α) (h : isSizeErr r) :
    ∀ out, r ≠ Except.ok out := by
  obtain ⟨s, hs⟩ := h
  intro out hout
  rw [hs] at hout
  cases hout

/-! Claim theorems. -/

/-- C8: the default derived buffer sizes satisfy
`get_buffer_size_after_modulation(N) = N` and
`get_buffer_size_after_filtering(N) = get_buffer_size_after_modulation(N)`;
hence the one-size constructor yields `N = N_mod = N_fil` and the two-size
constructor yields `N_fil = N_mod`, absent overrides. -/
theorem modulator_default_derived_sizes (B R Q : Type) (N N_mod n_frames : Int) :
    get_buffer_size_after_modulation N = N ∧
    get_buffer_size_after_filtering N = get_buffer_size_after_modulation N ∧
    (Modulator.mk1 B R Q N n_frames).N = N ∧
    (Modulator.mk1 B R Q N n_frames).N_mod = N ∧
    (Modulator.mk1 B R Q N n_frames).N_fil = N ∧
    (Modulator.mk2 B R Q N N_mod n_frames).N_mod = N_mod ∧
    (Modulator.mk2 B R Q N N_mod n_frames).N_fil = N_mod :=
  ⟨rfl, rfl, rfl, rfl, rfl, rfl, rfl⟩

/-- C9: the three-size constructor raises `std::invalid_argument` exactly when
`N <= 0`; for positive `N` it succeeds for every `N_mod` and `N_fil`
(including non-positive ones, whose checks are commented out). -/
theorem modulator_ctor_checks_only_N (B R Q : Type) (N N_mod N_fil n_frames : Int) :
    ((∃ s, Modulator.mk3 B R Q N N_mod N_fil n_frames
        = Except.error (ModError.invalidArgument s)) ↔ N ≤ 0) ∧
    (0 < N → Modulator.mk3 B R Q N N_mod N_fil n_frames
        = Except.ok ⟨N, N_mod, N_fil, n_frames, none, none, none, none, none, none⟩) := by
  constructor
  · constructor
    · rintro ⟨s, hs⟩
      by_contra h
      push_neg at h
      rw [Modulator.mk3, if_neg (not_le.mpr h)] at hs
      cases hs
    · intro h
      exact ⟨_, by rw [Modulator.mk3, if_pos h]⟩
  · intro h
    rw [Modulator.mk3, if_neg (not_le.mpr h)]

/-- C9 witness: `N = 3` with non-positive `N_mod = -1`, `N_fil = 0` is
accepted without any error. -/
theorem modulator_ctor_checks_only_N_instance :
    Modulator.mk3 Int Int Int 3 (-1) 0 2
      = Except.ok ⟨3, -1, 0, 2, none, none, none, none, none, none⟩ :=
  (modulator_ctor_checks_only_N Int Int Int 3 (-1) 0 2).2 (by decide)

/-- C10: `Terminal::parameters::build` returns a standard terminal exactly
when the configured type is "STD", and raises `cannot_allocate` for every
other type; an allocation succeeds only with the standard terminal kind. -/
theorem terminal_build_std_iff (Rep : Type) (type : String) (reporters : List Rep) :
    (Terminal.parameters.build Rep type reporters
        = Except.ok (TerminalObj.std reporters) ↔ type = "STD") ∧
    (Terminal.parameters.build Rep type reporters
        = Except.error FactoryError.cannotAllocate ↔ type ≠ "STD") ∧
    ((∃ t, Terminal.parameters.build Rep type reporters = Except.ok t) ↔
        type = "STD") := by
  by_cases h : type = "STD" <;> simp [Terminal.parameters.build, h]

/-- C7: the `SC_BFER_ite` wiring state is exactly a collection of
duplicators, one router, one funnel and one predicate: the projection to
those four components is a bijection, the kind multiset counts one router,
one funnel and one predicate and one duplicator entry per duplicator, and
every kind occurring is one of the four dataflow primitive kinds. -/
theorem sc_bfer_ite_wiring_exactly_four :
    Function.Bijective (fun s : SC_BFER_ite =>
      (s.duplicator, s.router, s.funnel, s.predicate)) ∧
    ∀ s : SC_BFER_ite,
      (s.kinds.count PrimKind.duplicator = s.duplicator.length ∧
       s.kinds.count PrimKind.router = 1 ∧
       s.kinds.count PrimKind.funnel = 1 ∧
       s.kinds.count PrimKind.predicate = 1) ∧
      ∀ k ∈ s.kinds,
        k = PrimKind.duplicator ∨ k = PrimKind.router ∨
        k = PrimKind.funnel ∨ k = PrimKind.predicate := by
  refine ⟨⟨?_, ?_⟩, ?_⟩
  · intro s1 s2 h
    cases s1
    cases s2
    simpa using h
  · rintro ⟨d, r, f, p⟩
    exact ⟨⟨d, r, f, p⟩, rfl⟩
  · intro s
    refine ⟨⟨?_, ?_, ?_, ?_⟩, ?_⟩
    · simp [SC_BFER_ite.kinds, List.count_append, List.count_replicate]
    · simp [SC_BFER_ite.kinds, List.count_append, List.count_replicate]
    · simp [SC_BFER_ite.kinds, List.count_append, List.count_replicate]
    · simp [SC_BFER_ite.kinds, List.count_append, List.count_replicate]
    · intro k _
      cases k
      · exact Or.inl rfl
      · exact Or.inr (Or.inl rfl)
      · exact Or.inr (Or.inr (Or.inl rfl))
      · exact Or.inr (Or.inr (Or.inr rfl))

/-- C5: all four demodulation variants check one shared Port Contract: the
noised/filtered channel input `Y_N1` and the channel gains `H_N` must hold
`N_fil` elements per frame, the extrinsic-feedback input and the demodulated
output must hold `N` elements per frame; a variant passes its size checks
exactly when every buffer satisfies that contract. -/
theorem demodulate_variants_shared_contract (B R Q : Type) (m : Modulator B R Q)
    (Y1 O : List Q) (Yg : List Q) (Hg : List R) (Og : List Q)
    (Ye Ee Oe : List Q) (Yw : List Q) (Hw : List R) (Ew Ow : List Q) :
    (¬ isSizeErr (m.demodulate Y1 O) ↔
        lenOKchan m Y1.length ∧ lenOKinfo m O.length) ∧
    (¬ isSizeErr (m.demodulate_with_gains Yg Hg Og) ↔
        lenOKchan m Yg.length ∧ lenOKchan m Hg.length ∧ lenOKinfo m Og.length) ∧
    (¬ isSizeErr (m.demodulate_ext Ye Ee Oe) ↔
        lenOKchan m Ye.length ∧ lenOKinfo m Ee.length ∧ lenOKinfo m Oe.length) ∧
    (¬ isSizeErr (m.demodulate_with_gains_ext Yw Hw Ew Ow) ↔
        lenOKchan m Yw.length ∧ lenOKchan m Hw.length ∧
        lenOKinfo m Ew.length ∧ lenOKinfo m Ow.length) := by
  refine ⟨?_, ?_, ?_, ?_⟩
  · simp only [Modulator.demodulate]
    rw [isSizeErr_if, isSizeErr_if]
    simp [Modulator.p_demodulate, frameLoop_not_sizeErr, lenOKchan, lenOKinfo,
      not_or]
  · simp only [Modulator.demodulate_with_gains]
    rw [isSizeErr_if, isSizeErr_if, isSizeErr_if]
    simp [Modulator.p_demodulate_with_gains, frameLoop_not_sizeErr, lenOKchan,
      lenOKinfo, not_or]
  · simp only [Modulator.demodulate_ext]
    rw [isSizeErr_if, isSizeErr_if, isSizeErr_if]
    simp [Modulator.p_demodulate_ext, frameLoop_not_sizeErr, lenOKchan,
      lenOKinfo, not_or]
  · simp only [Modulator.demodulate_with_gains_ext]
    rw [isSizeErr_if, isSizeErr_if, isSizeErr_if, isSizeErr_if]
    simp [Modulator.p_demodulate_with_gains_ext, frameLoop_not_sizeErr,
      lenOKchan, lenOKinfo, not_or]

/-- C1: every transform entry point raises a `SizeMismatch` (length) error
exactly when some argument buffer's length differs from its declared
per-frame element count times `n_frames`; with buffers of the declared
lengths no size error is raised and the protected module-specific transform
runs. -/
theorem modulator_entry_size_gate (B R Q : Type) (m : Modulator B R Q)
    (X1 : List B) (X2 : List R) (F1 F2 : List R) (D1 D2 : List Q)
    (G1 : List Q) (GH : List R) (G2 : List Q) (E1 E2 E3 : List Q)
    (W1 : List Q) (WH : List R) (W2 W3 : List Q) :
    (isSizeErr (m.modulate X1 X2) ↔
      ¬(m.N * m.n_frames = (X1.length : Int) ∧
        m.N_mod * m.n_frames = (X2.length : Int))) ∧
    (m.N * m.n_frames = (X1.length : Int) →
      m.N_mod * m.n_frames = (X2.length : Int) →
      m.modulate X1 X2 = m.p_modulate X1 X2) ∧
    (isSizeErr (m.filter F1 F2) ↔
      ¬(m.N_mod * m.n_frames = (F1.length : Int) ∧
        m.N_fil * m.n_frames = (F2.length : Int))) ∧
    (m.N_mod * m.n_frames = (F1.length : Int) →
      m.N_fil * m.n_frames = (F2.length : Int) →
      m.filter F1 F2 = m.p_filter F1 F2) ∧
    (isSizeErr (m.demodulate D1 D2) ↔
      ¬(m.N_fil * m.n_frames = (D1.length : Int) ∧
        m.N * m.n_frames = (D2.length : Int))) ∧
    (m.N_fil * m.n_frames = (D1.length : Int) →
      m.N * m.n_frames = (D2.length : Int) →
      m.demodulate D1 D2 = m.p_demodulate D1 D2) ∧
    (isSizeErr (m.demodulate_with_gains G1 GH G2) ↔
      ¬(m.N_fil * m.n_frames = (G1.length : Int) ∧
        m.N_fil * m.n_frames = (GH.length : Int) ∧
        m.N * m.n_frames = (G2.length : Int))) ∧
    (m.N_fil * m.n_frames = (G1.length : Int) →
      m.N_fil * m.n_frames = (GH.length : Int) →
      m.N * m.n_frames = (G2.length : Int) →
      m.demodulate_with_gains G1 GH G2 = m.p_demodulate_with_gains G1 GH G2) ∧
    (isSizeErr (m.demodulate_ext E1 E2 E3) ↔
      ¬(m.N_fil * m.n_frames = (E1.length : Int) ∧
        m.N * m.n_frames = (E2.length : Int) ∧
        m.N * m.n_frames = (E3.length : Int))) ∧
    (m.N_fil * m.n_frames = (E1.length : Int) →
      m.N * m.n_frames = (E2.length : Int) →
      m.N * m.n_frames = (E3.length : Int) →
      m.demodulate_ext E1 E2 E3 = m.p_demodulate_ext E1 E2 E3) ∧
    (isSizeErr (m.demodulate_with_gains_ext W1 WH W2 W3) ↔
      ¬(m.N_fil * m.n_frames = (W1.length : Int) ∧
        m.N_fil * m.n_frames = (WH.length : Int) ∧
        m.N * m.n_frames = (W2.length : Int) ∧
        m.N * m.n_frames = (W3.length : Int))) ∧
    (m.N_fil * m.n_frames = (W1.length : Int) →
      m.N_fil * m.n_frames = (WH.length : Int) →
      m.N * m.n_frames = (W2.length : Int) →
      m.N * m.n_frames = (W3.length : Int) →
      m.demodulate_with_gains_ext W1 WH W2 W3
        = m.p_demodulate_with_gains_ext W1 WH W2 W3) := by
  refine ⟨?_, ?_, ?_, ?_, ?_, ?_, ?_, ?_, ?_, ?_, ?_, ?_⟩
  · have hp : ¬ isSizeErr (m.p_modulate X1 X2) := by
      rw [Modulator.p_modulate]; exact frameLoop_not_sizeErr _ _ _ _ _
    simp only [Modulator.modulate]
    rw [isSizeErr_if, isSizeErr_if]
    tauto
  · intro h1 h2
    simp only [Modulator.modulate]
    rw [if_neg (not_not_intro h1), if_neg (not_not_intro h2)]
  · have hp : ¬ isSizeErr (m.p_filter F1 F2) := by
      rw [Modulator.p_filter]
      by_cases h : F1.length = F2.length
      · rw [if_pos h]
        rintro ⟨s, hs⟩
        cases hs
      · rw [if_neg h]
        exact frameLoop_not_sizeErr _ _ _ _ _
    simp only [Modulator.filter]
    rw [isSizeErr_if, isSizeErr_if]
    tauto
  · intro h1 h2
    simp only [Modulator.filter]
    rw [if_neg (not_not_intro h1), if_neg (not_not_intro h2)]
  · have hp : ¬ isSizeErr (m.p_demodulate D1 D2) := by
      rw [Modulator.p_demodulate]; exact frameLoop_not_sizeErr _ _ _ _ _
    simp only [Modulator.demodulate]
    rw [isSizeErr_if, isSizeErr_if]
    tauto
  · intro h1 h2
    simp only [Modulator.demodulate]
    rw [if_neg (not_not_intro h1), if_neg (not_not_intro h2)]
  · have hp : ¬ isSizeErr (m.p_demodulate_with_gains G1 GH G2) := by
      rw [Modulator.p_demodulate_with_gains]
      exact frameLoop_not_sizeErr _ _ _ _ _
    simp only [Modulator.demodulate_with_gains]
    rw [isSizeErr_if, isSizeErr_if, isSizeErr_if]
    tauto
  · intro h1 h2 h3
    simp only [Modulator.demodulate_with_gains]
    rw [if_neg (not_not_intro h1), if_neg (not_not_intro h2),
      if_neg (not_not_intro h3)]
  · have hp : ¬ isSizeErr (m.p_demodulate_ext E1 E2 E3) := by
      rw [Modulator.p_demodulate_ext]
      exact frameLoop_not_sizeErr _ _ _ _ _
    simp only [Modulator.demodulate_ext]
    rw [isSizeErr_if, isSizeErr_if, isSizeErr_if]
    tauto
  · intro h1 h2 h3
    simp only [Modulator.demodulate_ext]
    rw [if_neg (not_not_intro h1), if_neg (not_not_intro h2),
      if_neg (not_not_intro h3)]
  · have hp : ¬ isSizeErr (m.p_demodulate_with_gains_ext W1 WH W2 W3) := by
      rw [Modulator.p_demodulate_with_gains_ext]
      exact frameLoop_not_sizeErr _ _ _ _ _
    simp only [Modulator.demodulate_with_gains_ext]
    rw [isSizeErr_if, isSizeErr_if, isSizeErr_if, isSizeErr_if]
    tauto
  · intro h1 h2 h3 h4
    simp only [Modulator.demodulate_with_gains_ext]
    rw [if_neg (not_not_intro h1), if_neg (not_not_intro h2),
      if_neg (not_not_intro h3), if_neg (not_not_intro h4)]

/-- C1 witness: on a one-frame modulator with `N = N_mod = 1` and buffers of
the declared lengths, `modulate` runs the protected transform. -/
theorem modulator_entry_size_gate_instance :
    (⟨1, 1, 1, 1, none, none, none, none, none, none⟩
        : Modulator Int Int Int).modulate [0] [0]
      = (⟨1, 1, 1, 1, none, none, none, none, none, none⟩
        : Modulator Int Int Int).p_modulate [0] [0] :=
  (modulator_entry_size_gate Int Int Int
      ⟨1, 1, 1, 1, none, none, none, none, none, none⟩
      [0] [0] [] [] [] [] [] [] [] [] [] [] [] [] [] []).2.1
    (by decide) (by decide)

/-- C6: a wrongly sized buffer makes every transform entry point (modulate,
filter and all four demodulation variants) return the size error itself: the
result is the `length_error`, never a success, and it does not depend on any
per-frame kernel (any modulator `m'` with the same declared sizes but
arbitrary kernels gets the same result), so no module-specific logic runs and
the output buffer is untouched. -/
theorem size_error_precedes_kernel (B R Q : Type) (m m' : Modulator B R Q)
    (hN : m'.N = m.N) (hNm : m'.N_mod = m.N_mod) (hNf : m'.N_fil = m.N_fil)
    (hnf : m'.n_frames = m.n_frames)
    (X1 : List B) (X2 : List R) (F1 F2 : List R) (D1 D2 : List Q)
    (G1 : List Q) (GH : List R) (G2 : List Q) (E1 E2 E3 : List Q)
    (W1 : List Q) (WH : List R) (W2 W3 : List Q) :
    (¬(m.N * m.n_frames = (X1.length : Int) ∧
        m.N_mod * m.n_frames = (X2.length : Int)) →
      isSizeErr (m.modulate X1 X2) ∧
      (∀ out, m.modulate X1 X2 ≠ Except.ok out) ∧
      m'.modulate X1 X2 = m.modulate X1 X2) ∧
    (¬(m.N_mod * m.n_frames = (F1.length : Int) ∧
        m.N_fil * m.n_frames = (F2.length : Int)) →
      isSizeErr (m.filter F1 F2) ∧
      (∀ out, m.filter F1 F2 ≠ Except.ok out) ∧
      m'.filter F1 F2 = m.filter F1 F2) ∧
    (¬(m.N_fil * m.n_frames = (D1.length : Int) ∧
        m.N * m.n_frames = (D2.length : Int)) →
      isSizeErr (m.demodulate D1 D2) ∧
      (∀ out, m.demodulate D1 D2 ≠ Except.ok out) ∧
      m'.demodulate D1 D2 = m.demodulate D1 D2) ∧
    (¬(m.N_fil * m.n_frames = (G1.length : Int) ∧
        m.N_fil * m.n_frames = (GH.length : Int) ∧
        m.N * m.n_frames = (G2.length : Int)) →
      isSizeErr (m.demodulate_with_gains G1 GH G2) ∧
      (∀ out, m.demodulate_with_gains G1 GH G2 ≠ Except.ok out) ∧
      m'.demodulate_with_gains G1 GH G2 = m.demodulate_with_gains G1 GH G2) ∧
    (¬(m.N_fil * m.n_frames = (E1.length : Int) ∧
        m.N * m.n_frames = (E2.length : Int) ∧
        m.N * m.n_frames = (E3.length : Int)) →
      isSizeErr (m.demodulate_ext E1 E2 E3) ∧
      (∀ out, m.demodulate_ext E1 E2 E3 ≠ Except.ok out) ∧
      m'.demodulate_ext E1 E2 E3 = m.demodulate_ext E1 E2 E3) ∧
    (¬(m.N_fil * m.n_frames = (W1.length : Int) ∧
        m.N_fil * m.n_frames = (WH.length : Int) ∧
        m.N * m.n_frames = (W2.length : Int) ∧
        m.N * m.n_frames = (W3.length : Int)) →
      isSizeErr (m.demodulate_with_gains_ext W1 WH W2 W3) ∧
      (∀ out, m.demodulate_with_gains_ext W1 WH W2 W3 ≠ Except.ok out) ∧
      m'.demodulate_with_gains_ext W1 WH W2 W3
        = m.demodulate_with_gains_ext W1 WH W2 W3) := by
  refine ⟨?_, ?_, ?_, ?_, ?_, ?_⟩
  · intro hmis
    have herr : isSizeErr (m.modulate X1 X2) := by
      simp only [Modulator.modulate]
      rw [isSizeErr_if, isSizeErr_if]
      tauto
    refine ⟨herr, isSizeErr_not_ok _ herr, ?_⟩
    simp only [Modulator.modulate]
    rw [hN, hNm, hnf]
    split_ifs with g1 g2
    · rfl
    · rfl
    · exact absurd ⟨not_not.mp g1, not_not.mp g2⟩ hmis
  · intro hmis
    have herr : isSizeErr (m.filter F1 F2) := by
      simp only [Modulator.filter]
      rw [isSizeErr_if, isSizeErr_if]
      tauto
    refine ⟨herr, isSizeErr_not_ok _ herr, ?_⟩
    simp only [Modulator.filter]
    rw [hNm, hNf, hnf]
    split_ifs with g1 g2
    · rfl
    · rfl
    · exact absurd ⟨not_not.mp g1, not_not.mp g2⟩ hmis
  · intro hmis
    have herr : isSizeErr (m.demodulate D1 D2) := by
      simp only [Modulator.demodulate]
      rw [isSizeErr_if, isSizeErr_if]
      tauto
    refine ⟨herr, isSizeErr_not_ok _ herr, ?_⟩
    simp only [Modulator.demodulate]
    rw [hNf, hN, hnf]
    split_ifs with g1 g2
    · rfl
    · rfl
    · exact absurd ⟨not_not.mp g1, not_not.mp g2⟩ hmis
  · intro hmis
    have herr : isSizeErr (m.demodulate_with_gains G1 GH G2) := by
      simp only [Modulator.demodulate_with_gains]
      rw [isSizeErr_if, isSizeErr_if, isSizeErr_if]
      tauto
    refine ⟨herr, isSizeErr_not_ok _ herr, ?_⟩
    simp only [Modulator.demodulate_with_gains]
    rw [hNf, hN, hnf]
    split_ifs with g1 g2 g3
    · rfl
    · rfl
    · rfl
    · exact absurd ⟨not_not.mp g1, not_not.mp g2, not_not.mp g3⟩ hmis
  · intro hmis
    have herr : isSizeErr (m.demodulate_ext E1 E2 E3) := by
      simp only [Modulator.demodulate_ext]
      rw [isSizeErr_if, isSizeErr_if, isSizeErr_if]
      tauto
    refine ⟨herr, isSizeErr_not_ok _ herr, ?_⟩
    simp only [Modulator.demodulate_ext]
    rw [hNf, hN, hnf]
    split_ifs with g1 g2 g3
    · rfl
    · rfl
    · rfl
    · exact absurd ⟨not_not.mp g1, not_not.mp g2, not_not.mp g3⟩ hmis
  · intro hmis
    have herr : isSizeErr (m.demodulate_with_gains_ext W1 WH W2 W3) := by
      simp only [Modulator.demodulate_with_gains_ext]
      rw [isSizeErr_if, isSizeErr_if, isSizeErr_if, isSizeErr_if]
      tauto
    refine ⟨herr, isSizeErr_not_ok _ herr, ?_⟩
    simp only [Modulator.demodulate_with_gains_ext]
    rw [hNf, hN, hnf]
    split_ifs with g1 g2 g3 g4
    · rfl
    · rfl
    · rfl
    · rfl
    · exact absurd ⟨not_not.mp g1, not_not.mp g2, not_not.mp g3,
        not_not.mp g4⟩ hmis

/-- C6 witness: a modulator with no kernels and one with a filter kernel give
the same size error on a too-short `modulate` input. -/
theorem size_error_precedes_kernel_instance :
    isSizeErr ((⟨1, 1, 1, 1, none, none, none, none, none, none⟩
        : Modulator Int Int Int).modulate [] [0]) ∧
    (∀ out, (⟨1, 1, 1, 1, none, none, none, none, none, none⟩
        : Modulator Int Int Int).modulate [] [0] ≠ Except.ok out) ∧
    (⟨1, 1, 1, 1, some (fun l => l), some (fun l => l), none, none, none, none⟩
        : Modulator Int Int Int).modulate [] [0]
      = (⟨1, 1, 1, 1, none, none, none, none, none, none⟩
        : Modulator Int Int Int).modulate [] [0] :=
  (size_error_precedes_kernel Int Int Int
      ⟨1, 1, 1, 1, none, none, none, none, none, none⟩
      ⟨1, 1, 1, 1, some (fun l => l), some (fun l => l), none, none, none, none⟩
      rfl rfl rfl rfl [] [0] [] [] [] [] [] [] [] [] [] [] [] [] [] []).1
    (by decide)

/-- C3: on a modulator whose pre- and post-filter sizes agree
(`N_mod = N_fil`), `filter` with correctly sized buffers returns the pure
copy of its input, for every (even absent) filter kernel; and the protected
`_filter` takes the copy fast path whenever the two buffer sizes are
equal. -/
theorem filter_equal_sizes_pure_copy (B R Q : Type) (m : Modulator B R Q)
    (Y1 Y2 : List R) (hmf : m.N_mod = m.N_fil)
    (h1 : m.N_mod * m.n_frames = (Y1.length : Int))
    (h2 : m.N_fil * m.n_frames = (Y2.length : Int)) :
    m.filter Y1 Y2 = Except.ok Y1 ∧
    ∀ Z1 Z2 : List R, Z1.length = Z2.length →
      m.p_filter Z1 Z2 = Except.ok Z1 := by
  have hlen : Y1.length = Y2.length := by
    have hcast : ((Y1.length : Int)) = (Y2.length : Int) := by
      rw [← h1, ← h2, hmf]
    exact_mod_cast hcast
  constructor
  · simp only [Modulator.filter]
    rw [if_neg (not_not_intro h1), if_neg (not_not_intro h2),
      Modulator.p_filter, if_pos hlen]
  · intro Z1 Z2 hz
    rw [Modulator.p_filter, if_pos hz]

/-- C3 witness: a `N_mod = N_fil = 3` modulator copies its filter input. -/
theorem filter_equal_sizes_pure_copy_instance :
    (⟨2, 3, 3, 1, none, none, none, none, none, none⟩
        : Modulator Int Int Int).filter [1, 2, 3] [4, 5, 6]
      = Except.ok [1, 2, 3] :=
  (filter_equal_sizes_pure_copy Int Int Int
      ⟨2, 3, 3, 1, none, none, none, none, none, none⟩
      [1, 2, 3] [4, 5, 6] (by decide) (by decide) (by decide)).1

/-- C2 counterexample: on a modulator with `N_mod = N_fil` (here all sizes 1,
one frame) whose filter kernel is NOT overridden, `filter` with correctly
sized buffers does not raise the "unimplemented" error: the no-op fast path
returns the copied input instead. -/
theorem filter_noop_counterexample :
    (⟨1, 1, 1, 1, none, none, none, none, none, none⟩
        : Modulator Int Int Int).filter [5] [7] = Except.ok [5] ∧
    (⟨1, 1, 1, 1, none, none, none, none, none, none⟩
        : Modulator Int Int Int).filter [5] [7]
      ≠ Except.error (ModError.runtimeError (msgUnimpl "_filter_fbf")) := by
  constructor
  · rfl
  · intro h
    exact Except.noConfusion h

/-- C2 amended: with a positive batch width, every transform variant whose
per-frame kernel is not overridden raises the fatal "unimplemented"
`std::runtime_error` on correctly sized buffers — except `filter`, which
raises it only when `N_mod ≠ N_fil`; when `N_mod = N_fil` it takes the
pure-copy fast path (still not a silent no-op leaving the output
unchanged: the output becomes the copied input). -/
theorem default_kernels_raise_unimplemented (B R Q : Type) (m : Modulator B R Q)
    (hmk : m.modulate_fbf = none) (hfk : m.filter_fbf = none)
    (hdk : m.demodulate_fbf = none) (hgk : m.demodulate_with_gains_fbf = none)
    (hek : m.demodulate_ext_fbf = none)
    (hwk : m.demodulate_with_gains_ext_fbf = none)
    (hnf : 0 < m.n_frames) :
    (∀ (X1 : List B) (X2 : List R),
      m.N * m.n_frames = (X1.length : Int) →
      m.N_mod * m.n_frames = (X2.length : Int) →
      m.modulate X1 X2
        = Except.error (ModError.runtimeError (msgUnimpl "_modulate_fbf"))) ∧
    (∀ Y1 Y2 : List R,
      m.N_mod * m.n_frames = (Y1.length : Int) →
      m.N_fil * m.n_frames = (Y2.length : Int) →
      (m.N_mod ≠ m.N_fil →
        m.filter Y1 Y2
          = Except.error (ModError.runtimeError (msgUnimpl "_filter_fbf"))) ∧
      (m.N_mod = m.N_fil → m.filter Y1 Y2 = Except.ok Y1)) ∧
    (∀ Y1 Y2 : List Q,
      m.N_fil * m.n_frames = (Y1.length : Int) →
      m.N * m.n_frames = (Y2.length : Int) →
      m.demodulate Y1 Y2
        = Except.error (ModError.runtimeError (msgUnimpl "_demodulate_fbf"))) ∧
    (∀ (Y1 : List Q) (H : List R) (Y2 : List Q),
      m.N_fil * m.n_frames = (Y1.length : Int) →
      m.N_fil * m.n_frames = (H.length : Int) →
      m.N * m.n_frames = (Y2.length : Int) →
      m.demodulate_with_gains Y1 H Y2
        = Except.error
            (ModError.runtimeError (msgUnimpl "_demodulate_with_gains_fbf"))) ∧
    (∀ Y1 Y2 Y3 : List Q,
      m.N_fil * m.n_frames = (Y1.length : Int) →
      m.N * m.n_frames = (Y2.length : Int) →
      m.N * m.n_frames = (Y3.length : Int) →
      m.demodulate_ext Y1 Y2 Y3
        = Except.error (ModError.runtimeError (msgUnimpl "_demodulate_fbf"))) ∧
    (∀ (Y1 : List Q) (H : List R) (Y2 Y3 : List Q),
      m.N_fil * m.n_frames = (Y1.length : Int) →
      m.N_fil * m.n_frames = (H.length : Int) →
      m.N * m.n_frames = (Y2.length : Int) →
      m.N * m.n_frames = (Y3.length : Int) →
      m.demodulate_with_gains_ext Y1 H Y2 Y3
        = Except.error
            (ModError.runtimeError (msgUnimpl "_demodulate_with_gains_fbf"))) := by
  have hnf0 : m.n_frames.toNat ≠ 0 := by omega
  refine ⟨?_, ?_, ?_, ?_, ?_, ?_⟩
  · intro X1 X2 h1 h2
    simp only [Modulator.modulate]
    rw [if_neg (not_not_intro h1), if_neg (not_not_intro h2),
      Modulator.p_modulate, hmk]
    exact frameLoop_none_pos _ _ _ _ hnf0
  · intro Y1 Y2 h1 h2
    constructor
    · intro hne
      have hlen : Y1.length ≠ Y2.length := by
        intro he
        apply hne
        have hcast : ((Y1.length : Int)) = (Y2.length : Int) := by
          exact_mod_cast he
        rw [← h1, ← h2] at hcast
        exact mul_right_cancel₀ (by omega : m.n_frames ≠ 0) hcast
      simp only [Modulator.filter]
      rw [if_neg (not_not_intro h1), if_neg (not_not_intro h2),
        Modulator.p_filter, if_neg hlen, hfk]
      exact frameLoop_none_pos _ _ _ _ hnf0
    · intro heq
      have hlen : Y1.length = Y2.length := by
        have hcast : ((Y1.length : Int)) = (Y2.length : Int) := by
          rw [← h1, ← h2, heq]
        exact_mod_cast hcast
      simp only [Modulator.filter]
      rw [if_neg (not_not_intro h1), if_neg (not_not_intro h2),
        Modulator.p_filter, if_pos hlen]
  · intro Y1 Y2 h1 h2
    simp only [Modulator.demodulate]
    rw [if_neg (not_not_intro h1), if_neg (not_not_intro h2),
      Modulator.p_demodulate, hdk]
    exact frameLoop_none_pos _ _ _ _ hnf0
  · intro Y1 H Y2 h1 h2 h3
    simp only [Modulator.demodulate_with_gains]
    rw [if_neg (not_not_intro h1), if_neg (not_not_intro h2),
      if_neg (not_not_intro h3), Modulator.p_demodulate_with_gains, hgk]
    exact frameLoop_none_pos _ _ _ _ hnf0
  · intro Y1 Y2 Y3 h1 h2 h3
    simp only [Modulator.demodulate_ext]
    rw [if_neg (not_not_intro h1), if_neg (not_not_intro h2),
      if_neg (not_not_intro h3), Modulator.p_demodulate_ext, hek]
    exact frameLoop_none_pos _ _ _ _ hnf0
  · intro Y1 H Y2 Y3 h1 h2 h3 h4
    simp only [Modulator.demodulate_with_gains_ext]
    rw [if_neg (not_not_intro h1), if_neg (not_not_intro h2),
      if_neg (not_not_intro h3), if_neg (not_not_intro h4),
      Modulator.p_demodulate_with_gains_ext, hwk]
    exact frameLoop_none_pos _ _ _ _ hnf0

/-- C2 amended witness: on a kernel-less modulator with `N = 1`, `N_mod = 2`,
`N_fil = 3`, one frame, every variant raises its "unimplemented" error with
correctly sized buffers. -/
theorem default_kernels_raise_unimplemented_instance :
    (⟨1, 2, 3, 1, none, none, none, none, none, none⟩
        : Modulator Int Int Int).modulate [0] [0, 0]
      = Except.error (ModError.runtimeError (msgUnimpl "_modulate_fbf")) ∧
    (⟨1, 2, 3, 1, none, none, none, none, none, none⟩
        : Modulator Int Int Int).filter [0, 0] [0, 0, 0]
      = Except.error (ModError.runtimeError (msgUnimpl "_filter_fbf")) ∧
    (⟨1, 2, 3, 1, none, none, none, none, none, none⟩
        : Modulator Int Int Int).demodulate [0, 0, 0] [0]
      = Except.error (ModError.runtimeError (msgUnimpl "_demodulate_fbf")) ∧
    (⟨1, 2, 3, 1, none, none, none, none, none, none⟩
        : Modulator Int Int Int).demodulate_with_gains [0, 0, 0] [0, 0, 0] [0]
      = Except.error
          (ModError.runtimeError (msgUnimpl "_demodulate_with_gains_fbf")) ∧
    (⟨1, 2, 3, 1, none, none, none, none, none, none⟩
        : Modulator Int Int Int).demodulate_ext [0, 0, 0] [0] [0]
      = Except.error (ModError.runtimeError (msgUnimpl "_demodulate_fbf")) ∧
    (⟨1, 2, 3, 1, none, none, none, none, none, none⟩
        : Modulator Int Int Int).demodulate_with_gains_ext
        [0, 0, 0] [0, 0, 0] [0] [0]
      = Except.error
          (ModError.runtimeError (msgUnimpl "_demodulate_with_gains_fbf")) := by
  have h := default_kernels_raise_unimplemented Int Int Int
    ⟨1, 2, 3, 1, none, none, none, none, none, none⟩
    rfl rfl rfl rfl rfl rfl (by decide)
  exact ⟨h.1 [0] [0, 0] (by decide) (by decide),
    (h.2.1 [0, 0] [0, 0, 0] (by decide) (by decide)).1 (by decide),
    h.2.2.1 [0, 0, 0] [0] (by decide) (by decide),
    h.2.2.2.1 [0, 0, 0] [0, 0, 0] [0] (by decide) (by decide) (by decide),
    h.2.2.2.2.1 [0, 0, 0] [0] [0] (by decide) (by decide) (by decide),
    h.2.2.2.2.2 [0, 0, 0] [0, 0, 0] [0] [0] (by decide) (by decide)
      (by decide) (by decide)⟩

/-- C4 counterexample: on a modulator with equal pre/post filter sizes and an
overridden filter kernel (constantly `[42]`), the `filter` batch entry point
does not invoke the per-frame kernel at all: it returns the copied input
`[5]`, not the concatenation `[42]` of the per-frame kernel results. -/
theorem batch_dispatch_counterexample :
    (⟨1, 1, 1, 1, none, some (fun _ => [42]), none, none, none, none⟩
        : Modulator Int Int Int).filter [5] [7] = Except.ok [5] ∧
    (((List.range 1).map fun f =>
        (fun _ => ([42] : List Int)) (sliceFr [(5 : Int)] (f * 1) 1)).flatten
      = [42]) ∧
    ([(5 : Int)] ≠ [42]) := by
  refine ⟨rfl, rfl, ?_⟩
  decide

/-- C4 amended: the batch entry points dispatch per frame — `_modulate`,
both `_demodulate` overloads and both `_demodulate_with_gains` overloads
always, `_filter` whenever the two buffer sizes differ (with equal sizes it
takes the pure-copy fast path and invokes no kernel): with an overridden
kernel producing frames of the declared size and an output buffer of the
declared total size, the batch result is the concatenation of the per-frame
kernel results on input sub-buffers at offsets `f` times the declared
per-frame input sizes. -/
theorem batch_dispatch_concat (B R Q : Type) (m : Modulator B R Q)
    (km : List B → List R) (kd : List Q → List Q) (kf : List R → List R)
    (kg : List Q → List R → List Q) (ke : List Q → List Q → List Q)
    (kw : List Q → List R → List Q → List Q)
    (hkm : m.modulate_fbf = some km)
    (hkmlen : ∀ l, (km l).length = m.N_mod.toNat)
    (hkd : m.demodulate_fbf = some kd)
    (hkdlen : ∀ l, (kd l).length = m.N.toNat)
    (hkf : m.filter_fbf = some kf)
    (hkflen : ∀ l, (kf l).length = m.N_fil.toNat)
    (hkg : m.demodulate_with_gains_fbf = some kg)
    (hkglen : ∀ l h, (kg l h).length = m.N.toNat)
    (hke : m.demodulate_ext_fbf = some ke)
    (hkelen : ∀ l e, (ke l e).length = m.N.toNat)
    (hkw : m.demodulate_with_gains_ext_fbf = some kw)
    (hkwlen : ∀ l h e, (kw l h e).length = m.N.toNat) :
    (∀ (X1 : List B) (X2 : List R),
      X2.length = m.n_frames.toNat * m.N_mod.toNat →
      m.p_modulate X1 X2
        = Except.ok (((List.range m.n_frames.toNat).map fun f =>
            km (sliceFr X1 (f * m.N.toNat) m.N.toNat)).flatten)) ∧
    (∀ Y1 Y2 : List Q,
      Y2.length = m.n_frames.toNat * m.N.toNat →
      m.p_demodulate Y1 Y2
        = Except.ok (((List.range m.n_frames.toNat).map fun f =>
            kd (sliceFr Y1 (f * m.N_fil.toNat) m.N_fil.toNat)).flatten)) ∧
    (∀ Y1 Y2 : List R,
      Y1.length ≠ Y2.length →
      Y2.length = m.n_frames.toNat * m.N_fil.toNat →
      m.p_filter Y1 Y2
        = Except.ok (((List.range m.n_frames.toNat).map fun f =>
            kf (sliceFr Y1 (f * m.N_mod.toNat) m.N_mod.toNat)).flatten)) ∧
    (∀ (Y1 : List Q) (H : List R) (Y2 : List Q),
      Y2.length = m.n_frames.toNat * m.N.toNat →
      m.p_demodulate_with_gains Y1 H Y2
        = Except.ok (((List.range m.n_frames.toNat).map fun f =>
            kg (sliceFr Y1 (f * m.N_fil.toNat) m.N_fil.toNat)
              (sliceFr H (f * m.N_fil.toNat) m.N_fil.toNat)).flatten)) ∧
    (∀ Y1 Y2 Y3 : List Q,
      Y3.length = m.n_frames.toNat * m.N.toNat →
      m.p_demodulate_ext Y1 Y2 Y3
        = Except.ok (((List.range m.n_frames.toNat).map fun f =>
            ke (sliceFr Y1 (f * m.N_fil.toNat) m.N_fil.toNat)
              (sliceFr Y2 (f * m.N.toNat) m.N.toNat)).flatten)) ∧
    (∀ (Y1 : List Q) (H : List R) (Y2 Y3 : List Q),
      Y3.length = m.n_frames.toNat * m.N.toNat →
      m.p_demodulate_with_gains_ext Y1 H Y2 Y3
        = Except.ok (((List.range m.n_frames.toNat).map fun f =>
            kw (sliceFr Y1 (f * m.N_fil.toNat) m.N_fil.toNat)
              (sliceFr H (f * m.N_fil.toNat) m.N_fil.toNat)
              (sliceFr Y2 (f * m.N.toNat) m.N.toNat)).flatten)) := by
  refine ⟨?_, ?_, ?_, ?_, ?_, ?_⟩
  · intro X1 X2 hlen
    rw [Modulator.p_modulate, hkm]
    exact frameLoop_some_concat _ _ _ _ _ (fun f => hkmlen _) hlen
  · intro Y1 Y2 hlen
    rw [Modulator.p_demodulate, hkd]
    exact frameLoop_some_concat _ _ _ _ _ (fun f => hkdlen _) hlen
  · intro Y1 Y2 hne hlen
    rw [Modulator.p_filter, if_neg hne, hkf]
    exact frameLoop_some_concat _ _ _ _ _ (fun f => hkflen _) hlen
  · intro Y1 H Y2 hlen
    rw [Modulator.p_demodulate_with_gains, hkg]
    exact frameLoop_some_concat _ _ _ _ _ (fun f => hkglen _ _) hlen
  · intro Y1 Y2 Y3 hlen
    rw [Modulator.p_demodulate_ext, hke]
    exact frameLoop_some_concat _ _ _ _ _ (fun f => hkelen _ _) hlen
  · intro Y1 H Y2 Y3 hlen
    rw [Modulator.p_demodulate_with_gains_ext, hkw]
    exact frameLoop_some_concat _ _ _ _ _ (fun f => hkwlen _ _ _) hlen

/-- C4 amended witness: a two-frame modulator (`N = 2`, `N_mod = 1`,
`N_fil = 2`) with summing kernels lays the per-frame results down
contiguously for `_modulate`, `_demodulate`, both gains overloads, the
extrinsic `_demodulate` and (on distinct buffer sizes) `_filter`. -/
theorem batch_dispatch_concat_instance :
    (⟨2, 1, 2, 2, some (fun l => [l.sum]), some (fun l => [l.sum, 0]),
        some (fun l => [l.sum, l.sum]), some (fun l h => [l.sum, h.sum]),
        some (fun l e => [l.sum + e.sum, 0]),
        some (fun l h e => [l.sum, h.sum + e.sum])⟩
        : Modulator Int Int Int).p_modulate [1, 2, 3, 4] [0, 0]
      = Except.ok [3, 7] ∧
    (⟨2, 1, 2, 2, some (fun l => [l.sum]), some (fun l => [l.sum, 0]),
        some (fun l => [l.sum, l.sum]), some (fun l h => [l.sum, h.sum]),
        some (fun l e => [l.sum + e.sum, 0]),
        some (fun l h e => [l.sum, h.sum + e.sum])⟩
        : Modulator Int Int Int).p_demodulate [1, 1, 2, 2] [0, 0, 0, 0]
      = Except.ok [2, 2, 4, 4] ∧
    (⟨2, 1, 2, 2, some (fun l => [l.sum]), some (fun l => [l.sum, 0]),
        some (fun l => [l.sum, l.sum]), some (fun l h => [l.sum, h.sum]),
        some (fun l e => [l.sum + e.sum, 0]),
        some (fun l h e => [l.sum, h.sum + e.sum])⟩
        : Modulator Int Int Int).p_filter [5, 6] [0, 0, 0, 0]
      = Except.ok [5, 0, 6, 0] ∧
    (⟨2, 1, 2, 2, some (fun l => [l.sum]), some (fun l => [l.sum, 0]),
        some (fun l => [l.sum, l.sum]), some (fun l h => [l.sum, h.sum]),
        some (fun l e => [l.sum + e.sum, 0]),
        some (fun l h e => [l.sum, h.sum + e.sum])⟩
        : Modulator Int Int Int).p_demodulate_with_gains
        [1, 1, 2, 2] [1, 0, 1, 0] [0, 0, 0, 0]
      = Except.ok [2, 1, 4, 1] ∧
    (⟨2, 1, 2, 2, some (fun l => [l.sum]), some (fun l => [l.sum, 0]),
        some (fun l => [l.sum, l.sum]), some (fun l h => [l.sum, h.sum]),
        some (fun l e => [l.sum + e.sum, 0]),
        some (fun l h e => [l.sum, h.sum + e.sum])⟩
        : Modulator Int Int Int).p_demodulate_ext
        [1, 1, 2, 2] [1, 0, 0, 1] [0, 0, 0, 0]
      = Except.ok [3, 0, 5, 0] ∧
    (⟨2, 1, 2, 2, some (fun l => [l.sum]), some (fun l => [l.sum, 0]),
        some (fun l => [l.sum, l.sum]), some (fun l h => [l.sum, h.sum]),
        some (fun l e => [l.sum + e.sum, 0]),
        some (fun l h e => [l.sum, h.sum + e.sum])⟩
        : Modulator Int Int Int).p_demodulate_with_gains_ext
        [1, 1, 2, 2] [1, 0, 1, 0] [1, 0, 0, 1] [0, 0, 0, 0]
      = Except.ok [2, 2, 4, 2] := by
  have h := batch_dispatch_concat Int Int Int
    ⟨2, 1, 2, 2, some (fun l => [l.sum]), some (fun l => [l.sum, 0]),
      some (fun l => [l.sum, l.sum]), some (fun l h => [l.sum, h.sum]),
      some (fun l e => [l.sum + e.sum, 0]),
      some (fun l h e => [l.sum, h.sum + e.sum])⟩
    (fun l => [l.sum]) (fun l => [l.sum, l.sum]) (fun l => [l.sum, 0])
    (fun l h => [l.sum, h.sum]) (fun l e => [l.sum + e.sum, 0])
    (fun l h e => [l.sum, h.sum + e.sum])
    rfl (fun l => rfl) rfl (fun l => rfl) rfl (fun l => rfl)
    rfl (fun l h => rfl) rfl (fun l e => rfl) rfl (fun l h e => rfl)
  refine ⟨(h.1 [1, 2, 3, 4] [0, 0] (by decide)).trans ?_,
    (h.2.1 [1, 1, 2, 2] [0, 0, 0, 0] (by decide)).trans ?_,
    (h.2.2.1 [5, 6] [0, 0, 0, 0] (by decide) (by decide)).trans ?_,
    (h.2.2.2.1 [1, 1, 2, 2] [1, 0, 1, 0] [0, 0, 0, 0] (by decide)).trans ?_,
    (h.2.2.2.2.1 [1, 1, 2, 2] [1, 0, 0, 1] [0, 0, 0, 0] (by decide)).trans ?_,
    (h.2.2.2.2.2 [1, 1, 2, 2] [1, 0, 1, 0] [1, 0, 0, 1] [0, 0, 0, 0]
        (by decide)).trans ?_⟩
  · rfl
  · rfl
  · rfl
  · rfl
  · rfl
  · rfl

/-- C7 witness: in a concrete wiring state with one duplicator, the router
kind occurring in the state is one of the four primitive kinds. -/
theorem sc_bfer_ite_wiring_exactly_four_instance :
    PrimKind.router = PrimKind.duplicator ∨ PrimKind.router = PrimKind.router ∨
    PrimKind.router = PrimKind.funnel ∨ PrimKind.router = PrimKind.predicate :=
  (sc_bfer_ite_wiring_exactly_four.2
      ⟨[SC_Duplicator.mk], SC_Router.mk, SC_Funnel.mk, SC_Predicate.mk⟩).2
    PrimKind.router (by decide)
